import Mathlib

/-!
Verification of the quiz-master-backend serverless handler.

This file is a shallow embedding of `src/lambda_function.py` (the gated
variant of the handler; `src/handler.py` shares `build_user_message`
verbatim).  Python values flowing through the handler are modelled by the
`PyVal` inductive; Python exceptions that the handler raises or catches are
modelled by `PyExc`; the handler itself becomes a function into
`Except PyExc Envelope`, where a `.error` result models an exception that
escapes `lambda_handler` unhandled.

External collaborators (Python standard library and network services) are
parameters of the embedding rather than definitions copied from the spec:
  * `loads : String -> Option PyVal` models `json.loads` (`none` = the text
    does not parse, i.e. `json.JSONDecodeError` is raised);
  * `b64 : String -> B64Result` models the composite
    `base64.b64decode(payload).decode('utf-8')`: it can fail with
    `binascii.Error` (a `ValueError` subclass) or `UnicodeDecodeError`,
    both of which the source catches in the same `except` clause;
  * `upstream : PyVal -> String -> UpstreamOutcome` models
    `client.messages.create(...)` as a function of the `model` value and the
    built user message, returning the response text with token usage, or an
    `anthropic.APIError`.  The system prompt, `max_tokens` and `temperature`
    are passed to this external call only and do not influence any claim, so
    they are absorbed into the parameter.
`json.dumps` applied to a response body is modelled by keeping the body as
the structured `PyVal` that the source passes to `json.dumps`.
-/

/-- Model of a Python value as it can appear in the Lambda event, in a parsed
JSON document, and in response bodies. -/
inductive PyVal where
  | none_ : PyVal
  | bool : Bool → PyVal
  | int : Int → PyVal
  | str : String → PyVal
  | list : List PyVal → PyVal
  | dict : List (String × PyVal) → PyVal

/-- Model of the Python exceptions relevant to the handler's control flow. -/
inductive PyExc where
  | attributeError (msg : String)
  | typeError (msg : String)
  | jsonDecodeError (msg : String)
  | apiError (msg : String)

/-- The environment variables the handler reads (`os.environ.get` returns
`None` for an unset variable, modelled by `none`). -/
structure Env where
  BASIC_AUTH_USERNAME : Option String
  BASIC_AUTH_PASSWORD : Option String
  ANTHROPIC_API_KEY : Option String

/-- Outcome of `base64.b64decode(payload).decode('utf-8')`:
`b64Error` models `binascii.Error` (a subclass of `ValueError`),
`utf8Error` models `UnicodeDecodeError`. -/
inductive B64Result where
  | ok (s : String)
  | b64Error
  | utf8Error

/-- Outcome of the external model call `client.messages.create(...)`:
the response text (`response.content[0].text`) together with
`response.usage.input_tokens` / `output_tokens`, or an `anthropic.APIError`. -/
inductive UpstreamOutcome where
  | ok (text : String) (input_tokens output_tokens : Nat)
  | apiError (msg : String)

/-- The HTTP-shaped dict returned by `lambda_handler`.  `headers = none`
models a response dict that has no `headers` key at all (the gate's 500
response), as opposed to an empty headers dict. -/
structure Envelope where
  statusCode : Nat
  headers : Option (List (String × String))
  body : PyVal

/-- Python dict lookup on the modelled field list (keys are unique in a
Python dict; first match). -/
def dictGet : List (String × PyVal) → String → Option PyVal
  | [], _ => none
  | (k, v) :: rest, key => if k = key then some v else dictGet rest key

/-- Python `d.get(key, default)` on a dict value. -/
def dictGetD (fs : List (String × PyVal)) (key : String) (dflt : PyVal) : PyVal :=
  (dictGet fs key).getD dflt

/-- Python `key in d`. -/
def containsKey (fs : List (String × PyVal)) (key : String) : Bool :=
  (dictGet fs key).isSome

/-- Python truthiness of a value (`bool(v)`). -/
def pyTruthy : PyVal → Bool
  | .none_ => false
  | .bool b => b
  | .int n => if n = 0 then false else true
  | .str s => if s = "" then false else true
  | .list [] => false
  | .list (_ :: _) => true
  | .dict [] => false
  | .dict (_ :: _) => true

/-- Python truthiness of an `os.environ.get` result (`None` and `""` are
falsy). -/
def optTruthy : Option String → Bool
  | none => false
  | some s => if s = "" then false else true

/-- Python type name, used in `AttributeError` messages. -/
def pyTypeName : PyVal → String
  | .none_ => "NoneType"
  | .bool _ => "bool"
  | .int _ => "int"
  | .str _ => "str"
  | .list _ => "list"
  | .dict _ => "dict"

/-- The `AttributeError` raised by `v.attr` when `v` lacks the attribute. -/
def noAttrExc (v : PyVal) (attr : String) : PyExc :=
  .attributeError
    ("\x27" ++ pyTypeName v ++ "\x27 object has no attribute \x27" ++ attr ++ "\x27")

/-- Python `v.get(key)`: dict lookup returning `None` when absent;
`AttributeError` when `v` is not a dict. -/
def pyGet : PyVal → String → Except PyExc PyVal
  | .dict fs, key => .ok (dictGetD fs key .none_)
  | v, _ => .error (noAttrExc v "get")

/-- Python `v.get(key, default)`: like `pyGet` but with an explicit default. -/
def pyGetD : PyVal → String → PyVal → Except PyExc PyVal
  | .dict fs, key, dflt => .ok (dictGetD fs key dflt)
  | v, _, _ => .error (noAttrExc v "get")

mutual
/-- Python `repr(v)` restricted to the modelled value fragment (string
escaping inside `repr` of a `str` is not modelled; no claim depends on it). -/
def pyRepr : PyVal → String
  | .none_ => "None"
  | .bool true => "True"
  | .bool false => "False"
  | .int n => toString n
  | .str s => "\x27" ++ s ++ "\x27"
  | .list xs => "[" ++ pyReprList xs ++ "]"
  | .dict fs => "\x7b" ++ pyReprDict fs ++ "\x7d"

/-- Comma-separated `repr`s of list elements. -/
def pyReprList : List PyVal → String
  | [] => ""
  | [v] => pyRepr v
  | v :: vs => pyRepr v ++ ", " ++ pyReprList vs

/-- Comma-separated `repr`-style dict items. -/
def pyReprDict : List (String × PyVal) → String
  | [] => ""
  | [(k, v)] => "\x27" ++ k ++ "\x27: " ++ pyRepr v
  | (k, v) :: fs => "\x27" ++ k ++ "\x27: " ++ pyRepr v ++ ", " ++ pyReprDict fs
end

/-- Python `str(v)` (`str` of a string is itself; every other value prints
as its `repr`). -/
def pyStr : PyVal → String
  | .str s => s
  | v => pyRepr v

/-- Python `sep.join(parts)`. -/
def pyJoin (sep : String) : List String → String
  | [] => ""
  | [s] => s
  | s :: rest => s ++ sep ++ pyJoin sep rest

/-- Python `\s` on the ASCII range (the inputs of interest are ASCII). -/
def pyIsSpace (c : Char) : Bool :=
  c = ' ' || c = '\t' || c = '\n' || c = '\r' || c = '\x0b' || c = '\x0c'

/-- Length of the leading whitespace run. -/
def wsRun : List Char → Nat
  | [] => 0
  | c :: cs => if pyIsSpace c then wsRun cs + 1 else 0

/-- Length of the match of the regex alternation from
`re.sub(r'```json\s*|\s*```', '', text)` when one starts at the head of
`cs`.  The first alternative is preferred; `\s*` is greedy, and in the
second alternative the backticks can only follow the maximal whitespace run
(a backtick is not whitespace, so greedy matching cannot stop earlier). -/
def fenceMatchLen (cs : List Char) : Option Nat :=
  if List.isPrefixOf "```json".data cs then
    some (7 + wsRun (cs.drop 7))
  else
    let w := wsRun cs
    if List.isPrefixOf "```".data (cs.drop w) then some (w + 3) else none

/-- Left-to-right scan of `re.sub`: replace each non-overlapping leftmost
match with the empty string.  Every match consumes at least three
characters, so fuel equal to the input length suffices. -/
def pySubAux : Nat → List Char → List Char
  | 0, cs => cs
  | _ + 1, [] => []
  | fuel + 1, c :: cs =>
    match fenceMatchLen (c :: cs) with
    | some n => pySubAux fuel (List.drop n (c :: cs))
    | none => c :: pySubAux fuel cs

/-- The fence-stripping step `re.sub(r'```json\s*|\s*```', '', text)`
(src/lambda_function.py line 18). -/
def cleanFences (s : String) : String :=
  String.mk (pySubAux s.data.length s.data)

/-- Python `s.strip()` on the modelled whitespace set. -/
def pyStrip (s : String) : String :=
  String.mk (((s.data.dropWhile pyIsSpace).reverse.dropWhile pyIsSpace).reverse)

/-- Python `s.startswith(pre)`. -/
def pyStartsWith (s pre : String) : Bool :=
  List.isPrefixOf pre.data s.data

/-- Helper for `pySplit`: accumulate the current chunk (reversed). -/
def pySplitAux (sep : Char) (acc : List Char) : List Char → List String
  | [] => [String.mk acc.reverse]
  | c :: cs =>
    if c = sep then String.mk acc.reverse :: pySplitAux sep [] cs
    else pySplitAux sep (c :: acc) cs

/-- Python `s.split(sep)` with a one-character separator (keeps empty
chunks, exactly like the Python explicit-separator split). -/
def pySplit (s : String) (sep : Char) : List String :=
  pySplitAux sep [] s.data

/-- Helper for `splitFirstColon`: scan for the first colon. -/
def splitColonAux (acc : List Char) : List Char → Option (String × String)
  | [] => none
  | c :: cs =>
    if c = ':' then some (String.mk acc.reverse, String.mk cs)
    else splitColonAux (c :: acc) cs

/-- Python `credentials.split(':', 1)` followed by the two-name unpacking
(src/lambda_function.py line 71): `none` models the `ValueError` raised by
unpacking when the string has no colon. -/
def splitFirstColon (s : String) : Option (String × String) :=
  splitColonAux [] s.data

/-- The headers attached by `create_error_response` and by the two 200
responses: `Content-Type: application/json` and CORS for all origins. -/
def corsHeaders : List (String × String) :=
  [("Content-Type", "application/json"), ("Access-Control-Allow-Origin", "*")]

/-- The value of the `WWW-Authenticate` challenge header on the gate's 401
responses. -/
def wwwAuthHeader : List (String × String) :=
  [("WWW-Authenticate", "Basic realm=\"Restricted Area\"")]

/-- The source's `create_error_response(status_code, message)`
(src/lambda_function.py lines 262-275). -/
def create_error_response (status_code : Nat) (message : String) : Envelope :=
  ⟨status_code, some corsHeaders,
    .dict [("success", .bool false), ("error", .str message)]⟩

/-- The gate's 500 response when the Basic-Auth secrets are not configured
(src/lambda_function.py lines 49-52).  Note: it has no `headers` key. -/
def configErrorEnvelope : Envelope :=
  ⟨500, none, .dict [("error", .str "Server configuration error")]⟩

/-- The gate's 401 when the `Authorization` header is absent or lacks the
`Basic ` prefix (lines 59-65). -/
def authRequiredEnvelope : Envelope :=
  ⟨401, some wwwAuthHeader, .dict [("error", .str "Authentication required")]⟩

/-- The gate's 401 on a username/password mismatch (lines 75-81). -/
def invalidCredentialsEnvelope : Envelope :=
  ⟨401, some wwwAuthHeader, .dict [("error", .str "Invalid credentials")]⟩

/-- The gate's 401 when decoding the credentials raises `ValueError` or
`UnicodeDecodeError` (lines 84-90). -/
def invalidAuthFormatEnvelope : Envelope :=
  ⟨401, some wwwAuthHeader, .dict [("error", .str "Invalid authentication format")]⟩

/-- The `usage` sub-dict of the 200 responses. -/
def usageVal (input_tokens output_tokens : Nat) : PyVal :=
  .dict [("input_tokens", .int input_tokens), ("output_tokens", .int output_tokens)]

/-- The 200 success response (lines 192-207). -/
def successEnvelope (data : PyVal) (input_tokens output_tokens : Nat) : Envelope :=
  ⟨200, some corsHeaders,
    .dict [("success", .bool true), ("data", data),
           ("usage", usageVal input_tokens output_tokens)]⟩

/-- The 200 warning response for an unparseable model reply (lines 173-189). -/
def warningEnvelope (raw : String) (input_tokens output_tokens : Nat) : Envelope :=
  ⟨200, some corsHeaders,
    .dict [("success", .bool true),
           ("warning", .str "Response is not valid JSON"),
           ("raw_response", .str raw),
           ("usage", usageVal input_tokens output_tokens)]⟩

/-- The message of the `TypeError` raised by constructing
`json.JSONDecodeError` with a single argument (its `__init__` requires
`msg`, `doc` and `pos`). -/
def jsonDecodeErrorArityMsg : String :=
  "JSONDecodeError.__init__() missing 2 required positional arguments: \x27doc\x27 and \x27pos\x27"

/-- The source's `extract_json_from_response(response_text)`
(src/lambda_function.py lines 16-29): strip markdown fences, strip
whitespace, then `json.loads`.  When `json.loads` raises
`JSONDecodeError`, the source executes `raise json.JSONDecodeError(msg)`
with a single argument; constructing `JSONDecodeError` that way itself
raises `TypeError`, so the function raises `TypeError` (never
`JSONDecodeError`), and the `return cleaned` on line 29 is dead code. -/
def extract_json_from_response (loads : String → Option PyVal)
    (response_text : String) : Except PyExc PyVal :=
  let cleaned := cleanFences response_text
  let cleaned := pyStrip cleaned
  match loads cleaned with
  | some v => .ok v
  | none => .error (.typeError jsonDecodeErrorArityMsg)

/-- The source's `build_user_message(prompt, tags)` (lines 218-229, and
verbatim the same in src/handler.py lines 128-139): the prompt, an optional
`Tags to consider:` line, and the fixed JSON-only instruction, joined with
newlines.  A pure function. -/
def build_user_message (prompt : String) (tags : List String) : String :=
  let message_parts := [prompt]
  let message_parts := message_parts ++
    (if tags.isEmpty then []
     else ["\nTags to consider: " ++
             pyJoin ", " (tags.map fun tag => "\"" ++ tag ++ "\"")])
  let message_parts := message_parts ++ ["\nPlease respond with valid JSON only."]
  pyJoin "\n" message_parts

/-- Result of the credential gate (src/lambda_function.py lines 42-98):
`early` is a `return` before the main logic, `authed` falls through to it,
and `crash` is an exception raised outside every `try` block (it escapes
`lambda_handler` unhandled). -/
inductive GateR where
  | crash (e : PyExc)
  | early (resp : Envelope)
  | authed (user : String)

/-- Python `headers.get('Authorization') or headers.get('authorization')`
(line 56): the first operand is kept when truthy, otherwise the second;
`dict.get` yields `None` for a missing key. -/
def authHeaderVal (hs : List (String × PyVal)) : PyVal :=
  let a := dictGetD hs "Authorization" .none_
  let b := dictGetD hs "authorization" .none_
  if pyTruthy a then a else b

/-- The credential gate as a function of the value of `event.get('headers',
{})` (lines 42-98).  The `except (ValueError, UnicodeDecodeError)` clause
catches `binascii.Error` (a `ValueError` subclass, raised by
`base64.b64decode`), `UnicodeDecodeError` (raised by `.decode('utf-8')`)
and the `ValueError` raised by unpacking a colon-free credentials string;
each yields the 401 format response.  Calling `.get` on a non-dict headers
value or `.startswith` on a non-string truthy header raises
`AttributeError` outside every `try`, which escapes the handler. -/
def gateHeaders (env : Env) (b64 : String → B64Result) (headersV : PyVal) : GateR :=
  if optTruthy env.BASIC_AUTH_USERNAME = false
      ∨ optTruthy env.BASIC_AUTH_PASSWORD = false then
    .early configErrorEnvelope
  else
    match headersV with
    | .dict hs =>
      let authHeaderV := authHeaderVal hs
      if pyTruthy authHeaderV = false then .early authRequiredEnvelope
      else
        match authHeaderV with
        | .str ah =>
          if pyStartsWith ah "Basic " = false then .early authRequiredEnvelope
          else
            let payload := (pySplit ah ' ').getD 1 ""
            match b64 payload with
            | .b64Error => .early invalidAuthFormatEnvelope
            | .utf8Error => .early invalidAuthFormatEnvelope
            | .ok credentials =>
              match splitFirstColon credentials with
              | none => .early invalidAuthFormatEnvelope
              | some (username, password) =>
                if username ≠ env.BASIC_AUTH_USERNAME.getD ""
                    ∨ password ≠ env.BASIC_AUTH_PASSWORD.getD "" then
                  .early invalidCredentialsEnvelope
                else .authed username
        | v => .crash (noAttrExc v "startswith")
    | v => .crash (noAttrExc v "get")

/-- The credential gate on the event: line 55 reads only
`event.get('headers', {})` before delegating to the header logic. -/
def gateCheck (env : Env) (b64 : String → B64Result)
    (event : List (String × PyVal)) : GateR :=
  gateHeaders env b64 (dictGetD event "headers" (.dict []))

/-- Body determination (lines 103-113): when the event has a `body` key
whose value is a string, try `json.loads` and on failure keep the raw
string; a non-string `body` value is used as-is; without a `body` key the
event itself is the body. -/
def bodyOf (loads : String → Option PyVal) (event : List (String × PyVal)) : PyVal :=
  if containsKey event "body" then
    match dictGetD event "body" .none_ with
    | .str s =>
      match loads s with
      | some v => v
      | none => .str s
    | v => v
  else .dict event

/-- Is the exception a `json.JSONDecodeError` (the only type the inner
`except` clause on line 170 catches)? -/
def isJsonDecodeError : PyExc → Bool
  | .jsonDecodeError _ => true
  | _ => false

/-- Is the exception an `anthropic.APIError` (caught on line 209)? -/
def isApiError : PyExc → Bool
  | .apiError _ => true
  | _ => false

/-- The exception's message, as interpolated by `str(e)` into the 500
responses. -/
def excMsg : PyExc → String
  | .attributeError msg => msg
  | .typeError msg => msg
  | .jsonDecodeError msg => msg
  | .apiError msg => msg

/-- Lines 161-207: the code after the model call.  The response text is
passed to `extract_json_from_response`; a `JSONDecodeError` would produce
the 200 warning response (lines 170-189), but because of the
single-argument re-raise that function raises `TypeError` instead, so the
warning branch is unreachable and the exception propagates to the outer
handler. -/
def afterCall (loads : String → Option PyVal)
    (outcome : UpstreamOutcome) : Except PyExc Envelope :=
  match outcome with
  | .apiError msg => .error (.apiError msg)
  | .ok text input_tokens output_tokens =>
    match extract_json_from_response loads text with
    | .ok extracted => .ok (successEnvelope extracted input_tokens output_tokens)
    | .error e =>
      if isJsonDecodeError e then .ok (warningEnvelope text input_tokens output_tokens)
      else .error e

/-- The body of the main `try` block (lines 100-207).  `load_dotenv()` and
the logging calls have no observable effect in the model; the event is a
dict by the platform contract, so `isinstance(event, dict)` holds.  Reading
`prompt` from a non-dict body raises `AttributeError` (line 115), modelled
by the `Except` error.  A truthy non-string prompt passes validation and
later makes `"\n".join` raise `TypeError` inside `build_user_message`
(line 139 via line 229).  The system prompt (line 142) only feeds the
external call and is absorbed into the `upstream` parameter. -/
def mainBody (env : Env) (loads : String → Option PyVal)
    (upstream : PyVal → String → UpstreamOutcome)
    (event : List (String × PyVal)) : Except PyExc Envelope :=
  let body := bodyOf loads event
  match pyGet body "prompt" with
  | .error e => .error e
  | .ok promptV =>
    match pyGetD body "tags" (.list []) with
    | .error e => .error e
    | .ok tagsV =>
      match pyGetD body "model" (.str "claude-sonnet-4-20250514") with
      | .error e => .error e
      | .ok modelV =>
        if pyTruthy promptV = false then
          .ok (create_error_response 400 "Missing required field: \x27prompt\x27")
        else
          match tagsV with
          | .list ts =>
            let tags := ts.map pyStr
            if optTruthy env.ANTHROPIC_API_KEY = false then
              .ok (create_error_response 500 "API configuration error")
            else
              match promptV with
              | .str p => afterCall loads (upstream modelV (build_user_message p tags))
              | v => .error (.typeError
                  ("sequence item 0: expected str instance, "
                    ++ pyTypeName v ++ " found"))
          | _ => .ok (create_error_response 400 "\x27tags\x27 must be a list of strings")

/-- The two `except` clauses wrapping the main `try` block (lines 209-215):
`anthropic.APIError` and any other exception become 500 error responses. -/
def wrapExcept (res : Except PyExc Envelope) : Except PyExc Envelope :=
  match res with
  | .ok resp => .ok resp
  | .error e =>
    if isApiError e then
      .ok (create_error_response 500 ("Claude API error: " ++ excMsg e))
    else
      .ok (create_error_response 500 ("Internal error: " ++ excMsg e))

/-- The source's `lambda_handler(event, context)` (lines 31-215): the
credential gate, then the main `try` block whose exceptions are mapped to
500 responses by `wrapExcept`.  An `Except.error` result models an
exception escaping the handler unhandled (possible only from the gate's
header reads, which sit outside every `try`). -/
def lambda_handler (env : Env) (b64 : String → B64Result)
    (loads : String → Option PyVal)
    (upstream : PyVal → String → UpstreamOutcome)
    (event : List (String × PyVal)) : Except PyExc Envelope :=
  match gateCheck env b64 event with
  | .crash e => .error e
  | .early resp => .ok resp
  | .authed _ => wrapExcept (mainBody env loads upstream event)

/-- Is the value list-shaped (Python `isinstance(v, list)`)? -/
def isListVal : PyVal → Bool
  | .list _ => true
  | _ => false

/-- The three decode-failure modes of the claim about malformed Basic
payloads: invalid Base64, invalid UTF-8, or a decoded string without a
colon separator. -/
def b64DecodeFails : B64Result → Bool
  | .b64Error => true
  | .utf8Error => true
  | .ok s => (splitFirstColon s).isNone

/-! Concrete fixtures used by the witness theorems. -/

/-- Test environment with both Basic-Auth secrets and the API key set. -/
def envW : Env := ⟨some "u", some "p", some "k"⟩

/-- Base64 oracle for the fixtures: `dTpw` is `base64("u:p")`; everything
else is treated as invalid Base64. -/
def b64W : String → B64Result := fun s => if s = "dTpw" then .ok "u:p" else .b64Error

/-- Headers carrying credentials valid for `envW`. -/
def authedHeaders : PyVal := .dict [("Authorization", .str "Basic dTpw")]

/-- A `json.loads` oracle under which no text parses. -/
def loadsNone : String → Option PyVal := fun _ => none

/-- A request body with a non-empty prompt and no tags. -/
def goodBody : PyVal := .dict [("prompt", .str "hi")]

/-- An authenticated event with a valid body. -/
def eventA : List (String × PyVal) := [("headers", authedHeaders), ("body", goodBody)]

/-- The JSON text of the spec's fencing example. -/
def innerA : String := "\x7b\"a\":1\x7d"

/-- The spec's fencing example: the JSON text wrapped in markdown fences. -/
def fencedA : String := "```json\n" ++ innerA ++ "\n```"

/-- The parsed value of `innerA`. -/
def valA : PyVal := .dict [("a", .int 1)]

/-- A `json.loads` oracle that parses exactly `innerA`. -/
def loadsA : String → Option PyVal := fun s => if s = innerA then some valA else none

/-- Helper: under an authenticated, validated request whose upstream reply
parses after fence stripping, the handler returns the 200 success
envelope.  Shared by the success-path claims. -/
theorem handler_success_envelope
    (env : Env) (b64 : String → B64Result) (loads : String → Option PyVal)
    (upstream : PyVal → String → UpstreamOutcome)
    (event : List (String × PyVal)) (bf : List (String × PyVal))
    (p : String) (ts : List PyVal) (text : String) (i o : Nat) (v : PyVal) (u : String)
    (hgate : gateCheck env b64 event = .authed u)
    (hbody : bodyOf loads event = .dict bf)
    (hprompt : dictGet bf "prompt" = some (.str p))
    (hp : p ≠ "")
    (htags : dictGetD bf "tags" (.list []) = .list ts)
    (hkey : optTruthy env.ANTHROPIC_API_KEY = true)
    (hup : ∀ m msg, upstream m msg = .ok text i o)
    (hparse : loads (pyStrip (cleanFences text)) = some v) :
    lambda_handler env b64 loads upstream event = .ok (successEnvelope v i o) := by
  have hprompt' : dictGetD bf "prompt" PyVal.none_ = .str p := by
    rw [dictGetD, hprompt]; rfl
  have htruthy : pyTruthy (.str p) = true := by simp [pyTruthy, hp]
  unfold lambda_handler
  rw [hgate]
  unfold mainBody
  rw [hbody]
  simp only [pyGet, pyGetD, hprompt', htags, htruthy, hkey]
  simp only [extract_json_from_response, afterCall, hup, hparse]
  simp [wrapExcept]

/-- C1: for every request that passes the credential gate and validation
(non-empty string prompt, list-shaped tags, configured API key) and whose
upstream call returns text that parses as JSON after fence stripping,
`lambda_handler` returns status 200 with body
`{success: true, data: <parsed json>, usage: {input_tokens, output_tokens}}`. -/
theorem c1_parsed_json_success
    (env : Env) (b64 : String → B64Result) (loads : String → Option PyVal)
    (upstream : PyVal → String → UpstreamOutcome)
    (event : List (String × PyVal)) (bf : List (String × PyVal))
    (p : String) (ts : List PyVal) (text : String) (i o : Nat) (v : PyVal) (u : String)
    (hgate : gateCheck env b64 event = .authed u)
    (hbody : bodyOf loads event = .dict bf)
    (hprompt : dictGet bf "prompt" = some (.str p))
    (hp : p ≠ "")
    (htags : dictGetD bf "tags" (.list []) = .list ts)
    (hkey : optTruthy env.ANTHROPIC_API_KEY = true)
    (hup : ∀ m msg, upstream m msg = .ok text i o)
    (hparse : loads (pyStrip (cleanFences text)) = some v) :
    lambda_handler env b64 loads upstream event = .ok (successEnvelope v i o) :=
  handler_success_envelope env b64 loads upstream event bf p ts text i o v u
    hgate hbody hprompt hp htags hkey hup hparse

/-- Witness for C1 at a concrete authenticated request whose upstream reply
is the unfenced JSON text `innerA`. -/
theorem c1_parsed_json_success_witness :
    lambda_handler envW b64W loadsA (fun _ _ => .ok innerA 3 4) eventA
      = .ok (successEnvelope valA 3 4) :=
  c1_parsed_json_success envW b64W loadsA (fun _ _ => .ok innerA 3 4) eventA
    [("prompt", .str "hi")] "hi" [] innerA 3 4 valA "u"
    rfl rfl rfl (by decide) rfl rfl (fun _ _ => rfl) rfl

/-- C9: for every prompt string and list of tag strings,
`build_user_message` returns exactly the prompt verbatim, then (when tags
are non-empty) the `Tags to consider:` line listing each tag quoted, then
the fixed JSON-only instruction line, and nothing else.  The function is a
total Lean function of its two arguments, so it has no side effects and is
idempotent across calls. -/
theorem c9_build_user_message (p : String) (tags : List String) :
    build_user_message p tags =
      p ++ (if tags.isEmpty then ""
            else "\n\nTags to consider: "
              ++ pyJoin ", " (tags.map fun t => "\"" ++ t ++ "\""))
        ++ "\n\nPlease respond with valid JSON only." := by
  have h2 : "\n" ++ "\nPlease respond with valid JSON only."
      = "\n\nPlease respond with valid JSON only." := by decide
  cases tags with
  | nil =>
    show p ++ "\n" ++ "\nPlease respond with valid JSON only."
        = p ++ "" ++ "\n\nPlease respond with valid JSON only."
    rw [String.append_assoc, String.append_empty, h2]
  | cons t ts =>
    show p ++ "\n"
        ++ ("\nTags to consider: "
              ++ pyJoin ", " ((t :: ts).map fun tag => "\"" ++ tag ++ "\"")
            ++ "\n" ++ "\nPlease respond with valid JSON only.")
        = _
    have h1 : ∀ x : String,
        "\n" ++ ("\nTags to consider: " ++ x) = "\n\nTags to consider: " ++ x := by
      intro x
      rw [← String.append_assoc]
      exact congrArg (· ++ x) (by decide)
    simp only [String.append_assoc, h2, h1, List.isEmpty_cons, Bool.false_eq_true,
      if_false]

/-- C3: for the upstream text consisting of the fenced payload
`(three backticks)json\n{"a":1}\n(three backticks)`, fence stripping yields
exactly the inner JSON text; extraction returns whatever `json.loads`
parses that text to; and the authenticated handler returns it as a 200
success envelope with `data` equal to that value. -/
theorem c3_fenced_extraction :
    pyStrip (cleanFences fencedA) = innerA
    ∧ (∀ loads v, loads innerA = some v →
        extract_json_from_response loads fencedA = .ok v)
    ∧ (∀ loads v i o, loads innerA = some v →
        lambda_handler envW b64W loads (fun _ _ => .ok fencedA i o) eventA
          = .ok (successEnvelope v i o)) := by
  have hclean : pyStrip (cleanFences fencedA) = innerA := by decide
  refine ⟨hclean, ?_, ?_⟩
  · intro loads v h
    simp only [extract_json_from_response]
    rw [hclean, h]
  · intro loads v i o h
    exact handler_success_envelope envW b64W loads (fun _ _ => .ok fencedA i o)
      eventA [("prompt", .str "hi")] "hi" [] fencedA i o v "u"
      rfl rfl rfl (by decide) rfl rfl (fun _ _ => rfl) (by rw [hclean]; exact h)

/-- Witness for C3 with the concrete `json.loads` oracle `loadsA`. -/
theorem c3_fenced_extraction_witness :
    extract_json_from_response loadsA fencedA = .ok valA
    ∧ lambda_handler envW b64W loadsA (fun _ _ => .ok fencedA 1 2) eventA
        = .ok (successEnvelope valA 1 2) :=
  ⟨c3_fenced_extraction.2.1 loadsA valA rfl,
   c3_fenced_extraction.2.2 loadsA valA 1 2 rfl⟩

/-- C2, evaluated at the failing input: for the authenticated, validated
request whose upstream reply is `not json at all` (which `json.loads`
rejects), the handler returns a 500 error envelope, not the 200 warning
envelope the claim (and the dead `except json.JSONDecodeError` branch on
lines 170-189) describes.  The cause: `extract_json_from_response`
re-raises with `json.JSONDecodeError(msg)`, and constructing
`JSONDecodeError` with one argument raises `TypeError`, which the inner
`except json.JSONDecodeError` clause does not catch; the outer
`except Exception` turns it into the 500 internal-error response. -/
theorem c2_unparseable_typeerror_500 :
    lambda_handler envW b64W loadsNone (fun _ _ => .ok "not json at all" 5 7) eventA
      = .ok (create_error_response 500 ("Internal error: " ++ jsonDecodeErrorArityMsg))
    ∧ (create_error_response 500
        ("Internal error: " ++ jsonDecodeErrorArityMsg)).statusCode ≠ 200 :=
  ⟨rfl, by decide⟩

/-- C10: the credential gate reads only `event.get('headers', {})`; for any
two events with equal headers on which the gate fails, the handler returns
the gate's envelope for both, identical regardless of their bodies. -/
theorem c10_gate_precedes_body
    (env : Env) (b64 : String → B64Result) (loads : String → Option PyVal)
    (upstream : PyVal → String → UpstreamOutcome)
    (e1 e2 : List (String × PyVal)) (resp : Envelope)
    (hh : dictGetD e1 "headers" (.dict []) = dictGetD e2 "headers" (.dict []))
    (hfail : gateCheck env b64 e1 = .early resp) :
    lambda_handler env b64 loads upstream e1 = .ok resp
    ∧ lambda_handler env b64 loads upstream e1
        = lambda_handler env b64 loads upstream e2 := by
  have h2 : gateCheck env b64 e2 = .early resp := by
    unfold gateCheck at hfail ⊢
    rw [← hh]
    exact hfail
  constructor
  · unfold lambda_handler
    rw [hfail]
  · unfold lambda_handler
    rw [hfail, h2]

/-- Event without an Authorization header, carrying a well-formed body. -/
def noAuthEvent1 : List (String × PyVal) := [("headers", .dict []), ("body", goodBody)]

/-- Event with the same (empty) headers but a different, string body. -/
def noAuthEvent2 : List (String × PyVal) := [("headers", .dict []), ("body", .str "other")]

/-- Witness for C10: same empty headers, different bodies, identical 401s. -/
theorem c10_gate_precedes_body_witness :
    lambda_handler envW b64W loadsNone (fun _ _ => .ok "" 0 0) noAuthEvent1
      = .ok authRequiredEnvelope
    ∧ lambda_handler envW b64W loadsNone (fun _ _ => .ok "" 0 0) noAuthEvent1
        = lambda_handler envW b64W loadsNone (fun _ _ => .ok "" 0 0) noAuthEvent2 :=
  c10_gate_precedes_body envW b64W loadsNone (fun _ _ => .ok "" 0 0)
    noAuthEvent1 noAuthEvent2 authRequiredEnvelope rfl rfl

/-- Authenticated event whose `body` is a string that is not valid JSON. -/
def strBodyEvent : List (String × PyVal) :=
  [("headers", authedHeaders), ("body", .str "not json")]

/-- C4 counterexample: for an authenticated event whose `body` string fails
JSON decoding, the handler returns a 500 internal error (the string body is
kept, and `body.get('prompt')` then raises `AttributeError`), not the 400
validation error the claim states. -/
theorem c4_string_body_counterexample :
    lambda_handler envW b64W loadsNone (fun _ _ => .ok "" 0 0) strBodyEvent
      = .ok (create_error_response 500
          "Internal error: \x27str\x27 object has no attribute \x27get\x27")
    ∧ (create_error_response 500
        "Internal error: \x27str\x27 object has no attribute \x27get\x27").statusCode
      ≠ 400 :=
  ⟨rfl, by decide⟩

/-- C4 as amended: when `body` is a string that fails JSON decoding, the
normalizer indeed keeps the raw string as the body value without raising;
but prompt extraction then calls `.get` on that string, raising
`AttributeError`, and the handler returns a 500 internal error, not a
400. -/
theorem c4_string_body_500
    (env : Env) (b64 : String → B64Result) (loads : String → Option PyVal)
    (upstream : PyVal → String → UpstreamOutcome)
    (event : List (String × PyVal)) (s : String) (u : String)
    (hgate : gateCheck env b64 event = .authed u)
    (hbodykey : dictGet event "body" = some (.str s))
    (hload : loads s = none) :
    bodyOf loads event = .str s
    ∧ lambda_handler env b64 loads upstream event
        = .ok (create_error_response 500
            "Internal error: \x27str\x27 object has no attribute \x27get\x27") := by
  have hbody : bodyOf loads event = .str s := by
    unfold bodyOf
    simp [containsKey, dictGetD, hbodykey, hload]
  refine ⟨hbody, ?_⟩
  unfold lambda_handler
  rw [hgate]
  unfold mainBody
  rw [hbody]
  simp only [pyGet, wrapExcept, noAttrExc, pyTypeName, isApiError, excMsg]
  rfl

/-- Witness for C4's amended theorem at the concrete string-body event. -/
theorem c4_string_body_500_witness :
    bodyOf loadsNone strBodyEvent = .str "not json"
    ∧ lambda_handler envW b64W loadsNone (fun _ _ => .ok "t" 1 1) strBodyEvent
        = .ok (create_error_response 500
            "Internal error: \x27str\x27 object has no attribute \x27get\x27") :=
  c4_string_body_500 envW b64W loadsNone (fun _ _ => .ok "t" 1 1) strBodyEvent
    "not json" "u" rfl rfl rfl

/-- C6: for every `Authorization` header with the `Basic ` prefix whose
payload fails Base64 decoding, decodes to invalid UTF-8, or decodes to a
colon-free string, the gate returns the 401 `Invalid authentication
format` envelope (which carries the `WWW-Authenticate` header) — the
failure is caught by the `except (ValueError, UnicodeDecodeError)` clause,
never crashing and never producing a 500. -/
theorem c6_malformed_basic_401
    (env : Env) (b64 : String → B64Result) (loads : String → Option PyVal)
    (upstream : PyVal → String → UpstreamOutcome)
    (event : List (String × PyVal)) (hs : List (String × PyVal)) (ah : String)
    (hu : optTruthy env.BASIC_AUTH_USERNAME = true)
    (hw : optTruthy env.BASIC_AUTH_PASSWORD = true)
    (hh : dictGetD event "headers" (.dict []) = .dict hs)
    (hah : authHeaderVal hs = .str ah)
    (hpref : pyStartsWith ah "Basic " = true)
    (hfail : b64DecodeFails (b64 ((pySplit ah ' ').getD 1 "")) = true) :
    lambda_handler env b64 loads upstream event = .ok invalidAuthFormatEnvelope := by
  have hne : ah ≠ "" := by
    intro he
    rw [he] at hpref
    exact absurd hpref (by decide)
  have htr : pyTruthy (.str ah) = true := by simp [pyTruthy, hne]
  unfold lambda_handler gateCheck
  rw [hh]
  unfold gateHeaders
  simp only [hu, hw, hah, htr, hpref]
  cases hb : b64 ((pySplit ah ' ').getD 1 "") with
  | b64Error => simp [hb]
  | utf8Error => simp [hb]
  | ok creds =>
    rw [hb] at hfail
    have hsp : splitFirstColon creds = none := by
      simpa [b64DecodeFails, Option.isNone_iff_eq_none] using hfail
    simp [hb, hsp]

/-- Witness for C6 at a concrete payload that is not valid Base64. -/
theorem c6_malformed_basic_401_witness :
    lambda_handler envW b64W loadsNone (fun _ _ => .ok "" 0 0)
      [("headers", .dict [("Authorization", .str "Basic !!!")]), ("body", goodBody)]
      = .ok invalidAuthFormatEnvelope :=
  c6_malformed_basic_401 envW b64W loadsNone (fun _ _ => .ok "" 0 0)
    [("headers", .dict [("Authorization", .str "Basic !!!")]), ("body", goodBody)]
    [("Authorization", .str "Basic !!!")] "Basic !!!"
    rfl rfl rfl rfl (by decide) rfl

/-- C7 counterexample: the gate's header lookup is a case-sensitive dict
lookup of exactly `Authorization` and `authorization`; the all-caps casing
`AUTHORIZATION` carrying the same valid credentials is not found, and the
handler returns the 401 `Authentication required` envelope instead of
proceeding past the gate (while the exact casing with the same credentials
authenticates). -/
theorem c7_uppercase_counterexample :
    gateCheck envW b64W [("headers", .dict [("AUTHORIZATION", .str "Basic dTpw")])]
      = .early authRequiredEnvelope
    ∧ lambda_handler envW b64W loadsNone (fun _ _ => .ok "" 0 0)
        [("headers", .dict [("AUTHORIZATION", .str "Basic dTpw")]), ("body", goodBody)]
      = .ok authRequiredEnvelope
    ∧ gateCheck envW b64W [("headers", authedHeaders)] = .authed "u" :=
  ⟨rfl, rfl, rfl⟩

/-- C7 as amended: the lookup consults exactly the two casings
`Authorization` and `authorization`; for either of those two casings
carrying valid Basic credentials the gate finds the header and the request
proceeds past it (other casings are not consulted — see the
counterexample). -/
theorem c7_exact_two_casings
    (b64 : String → B64Result) (event : List (String × PyVal))
    (eu ep : String) (k : Option String) (name ah creds : String)
    (heu : eu ≠ "") (hep : ep ≠ "")
    (hname : name = "Authorization" ∨ name = "authorization")
    (hh : dictGetD event "headers" (.dict []) = .dict [(name, .str ah)])
    (hpref : pyStartsWith ah "Basic " = true)
    (hb : b64 ((pySplit ah ' ').getD 1 "") = .ok creds)
    (hsplit : splitFirstColon creds = some (eu, ep)) :
    gateCheck ⟨some eu, some ep, k⟩ b64 event = .authed eu := by
  have hne : ah ≠ "" := by
    intro he
    rw [he] at hpref
    exact absurd hpref (by decide)
  have htru : optTruthy (some eu) = true := by simp [optTruthy, heu]
  have htrp : optTruthy (some ep) = true := by simp [optTruthy, hep]
  unfold gateCheck
  rw [hh]
  unfold gateHeaders
  rcases hname with h | h <;> subst h
  · have hval : authHeaderVal [("Authorization", .str ah)] = .str ah := by
      simp [authHeaderVal, dictGetD, dictGet, pyTruthy, hne]
    have htr : pyTruthy (.str ah) = true := by simp [pyTruthy, hne]
    simp [htru, htrp, hval, htr, hpref]
    rw [← List.getD_eq_getElem?_getD, hb]
    simp [hsplit]
  · have hval : authHeaderVal [("authorization", .str ah)] = .str ah := by
      simp [authHeaderVal, dictGetD, dictGet, pyTruthy, hne]
    have htr : pyTruthy (.str ah) = true := by simp [pyTruthy, hne]
    simp [htru, htrp, hval, htr, hpref]
    rw [← List.getD_eq_getElem?_getD, hb]
    simp [hsplit]

/-- Witness for C7's amended theorem: the lowercase casing with valid
credentials authenticates. -/
theorem c7_exact_two_casings_witness :
    gateCheck ⟨some "u", some "p", some "k"⟩ b64W
      [("headers", .dict [("authorization", .str "Basic dTpw")])] = .authed "u" :=
  c7_exact_two_casings b64W
    [("headers", .dict [("authorization", .str "Basic dTpw")])]
    "u" "p" (some "k") "authorization" "Basic dTpw" "u:p"
    (by decide) (by decide) (Or.inr rfl) rfl (by decide) rfl rfl

/-- C8: two parts.  (i) For every authenticated request whose body carries
a `tags` value that is not list-shaped, the handler returns a 400
validation error.  (ii) For every list-shaped `tags`, every element — of
any type — is coerced by Python `str()` (modelled by `pyStr`, which is
total, so coercion never fails), and processing continues to the upstream
call with exactly those coerced tags in the built user message. -/
theorem c8_tags_validation :
    (∀ (env : Env) (b64 : String → B64Result) (loads : String → Option PyVal)
        (upstream : PyVal → String → UpstreamOutcome)
        (event : List (String × PyVal)) (bf : List (String × PyVal))
        (t : PyVal) (u : String),
      gateCheck env b64 event = .authed u →
      bodyOf loads event = .dict bf →
      dictGet bf "tags" = some t →
      isListVal t = false →
      ∃ m, lambda_handler env b64 loads upstream event
        = .ok (create_error_response 400 m))
    ∧ (∀ (env : Env) (b64 : String → B64Result) (loads : String → Option PyVal)
        (upstream : PyVal → String → UpstreamOutcome)
        (event : List (String × PyVal)) (bf : List (String × PyVal))
        (p : String) (ts : List PyVal) (u : String),
      gateCheck env b64 event = .authed u →
      bodyOf loads event = .dict bf →
      dictGet bf "prompt" = some (.str p) →
      p ≠ "" →
      dictGetD bf "tags" (.list []) = .list ts →
      optTruthy env.ANTHROPIC_API_KEY = true →
      lambda_handler env b64 loads upstream event
        = wrapExcept (afterCall loads
            (upstream (dictGetD bf "model" (.str "claude-sonnet-4-20250514"))
              (build_user_message p (List.map pyStr ts))))) := by
  constructor
  · intro env b64 loads upstream event bf t u hgate hbody htag hnl
    have ht' : dictGetD bf "tags" (.list []) = t := by
      rw [dictGetD, htag]; rfl
    unfold lambda_handler
    rw [hgate]
    unfold mainBody
    rw [hbody]
    simp only [pyGet, pyGetD, ht']
    cases hpt : pyTruthy (dictGetD bf "prompt" PyVal.none_) with
    | false =>
      exact ⟨"Missing required field: \x27prompt\x27", by simp [wrapExcept]⟩
    | true =>
      refine ⟨"\x27tags\x27 must be a list of strings", ?_⟩
      cases t <;> simp [isListVal, wrapExcept] at hnl ⊢
  · intro env b64 loads upstream event bf p ts u hgate hbody hprompt hp htags hkey
    have hprompt' : dictGetD bf "prompt" PyVal.none_ = .str p := by
      rw [dictGetD, hprompt]; rfl
    have htruthy : pyTruthy (.str p) = true := by simp [pyTruthy, hp]
    unfold lambda_handler
    rw [hgate]
    unfold mainBody
    rw [hbody]
    simp only [pyGet, pyGetD, hprompt', htags, htruthy, hkey]
    simp

/-- Authenticated event whose `tags` value is a string (not a list). -/
def badTagsEvent : List (String × PyVal) :=
  [("headers", authedHeaders),
   ("body", .dict [("prompt", .str "hi"), ("tags", .str "x")])]

/-- Authenticated event with tags of mixed types. -/
def mixedTagsEvent : List (String × PyVal) :=
  [("headers", authedHeaders),
   ("body", .dict [("prompt", .str "hi"), ("tags", .list [.int 1, .str "x"])])]

/-- Witness for C8: a string-valued `tags` is a 400; a mixed-type tag list
is coerced elementwise and processing reaches the upstream call. -/
theorem c8_tags_validation_witness :
    (∃ m, lambda_handler envW b64W loadsNone (fun _ _ => .ok "" 0 0) badTagsEvent
      = .ok (create_error_response 400 m))
    ∧ lambda_handler envW b64W loadsA (fun _ _ => .ok innerA 1 2) mixedTagsEvent
      = wrapExcept (afterCall loadsA
          ((fun _ _ => UpstreamOutcome.ok innerA 1 2) (PyVal.str "claude-sonnet-4-20250514")
            (build_user_message "hi" (List.map pyStr [.int 1, .str "x"])))) :=
  ⟨c8_tags_validation.1 envW b64W loadsNone (fun _ _ => .ok "" 0 0) badTagsEvent
    [("prompt", .str "hi"), ("tags", .str "x")] (.str "x") "u" rfl rfl rfl rfl,
   c8_tags_validation.2 envW b64W loadsA (fun _ _ => .ok innerA 1 2) mixedTagsEvent
    [("prompt", .str "hi"), ("tags", .list [.int 1, .str "x"])] "hi"
    [.int 1, .str "x"] "u" rfl rfl rfl (by decide) rfl rfl⟩

/-- Helper: every envelope the post-call code returns carries the
`Content-Type` and CORS headers. -/
theorem afterCall_ok_headers (loads : String → Option PyVal)
    (oc : UpstreamOutcome) (r : Envelope)
    (h : afterCall loads oc = .ok r) : r.headers = some corsHeaders := by
  simp only [afterCall] at h
  repeat' split at h
  all_goals first
    | exact Except.noConfusion h
    | (injection h with h; rw [← h]; rfl)

/-- Helper: every envelope returned from inside the main `try` block
carries the `Content-Type` and CORS headers. -/
theorem mainBody_ok_headers (env : Env) (loads : String → Option PyVal)
    (upstream : PyVal → String → UpstreamOutcome)
    (event : List (String × PyVal)) (r : Envelope)
    (h : mainBody env loads upstream event = .ok r) : r.headers = some corsHeaders := by
  simp only [mainBody] at h
  repeat' split at h
  all_goals first
    | exact Except.noConfusion h
    | (injection h with h; rw [← h]; rfl)
    | exact afterCall_ok_headers _ _ _ h

/-- Helper: the gate's early returns are exactly its four literal
envelopes. -/
theorem gateHeaders_early_cases (env : Env) (b64 : String → B64Result)
    (hv : PyVal) (resp : Envelope)
    (h : gateHeaders env b64 hv = .early resp) :
    resp = configErrorEnvelope ∨ resp = authRequiredEnvelope
    ∨ resp = invalidCredentialsEnvelope ∨ resp = invalidAuthFormatEnvelope := by
  simp only [gateHeaders] at h
  repeat' split at h
  all_goals first
    | exact GateR.noConfusion h
    | (injection h with h; subst h;
       first
         | exact Or.inl rfl
         | exact Or.inr (Or.inl rfl)
         | exact Or.inr (Or.inr (Or.inl rfl))
         | exact Or.inr (Or.inr (Or.inr rfl)))

/-- C5 counterexample: the claim that every envelope carries
`Content-Type` and `Access-Control-Allow-Origin` fails on the
credential-gate paths: the gate's config-error 500 has no headers key at
all, and its 401 carries only the `WWW-Authenticate` challenge header, in
particular no `Content-Type`. -/
theorem c5_missing_headers_counterexample :
    lambda_handler ⟨none, none, some "k"⟩ b64W loadsNone (fun _ _ => .ok "" 0 0) eventA
      = .ok configErrorEnvelope
    ∧ configErrorEnvelope.headers = none
    ∧ lambda_handler envW b64W loadsNone (fun _ _ => .ok "" 0 0)
        [("headers", .dict []), ("body", goodBody)]
      = .ok authRequiredEnvelope
    ∧ authRequiredEnvelope.headers = some wwwAuthHeader
    ∧ List.lookup "Content-Type" wwwAuthHeader = none :=
  ⟨rfl, rfl, rfl, rfl, rfl⟩

/-- C5 as amended: every envelope the handler returns either carries the
`Content-Type`/CORS header pair (all `create_error_response` envelopes and
both 200 envelopes), or is a gate 401 carrying exactly the
`WWW-Authenticate` challenge header, or is the gate's config-error 500
carrying no headers at all. -/
theorem c5_envelope_headers
    (env : Env) (b64 : String → B64Result) (loads : String → Option PyVal)
    (upstream : PyVal → String → UpstreamOutcome)
    (event : List (String × PyVal)) (r : Envelope)
    (h : lambda_handler env b64 loads upstream event = .ok r) :
    r.headers = some corsHeaders
    ∨ (r.statusCode = 401 ∧ r.headers = some wwwAuthHeader)
    ∨ (r = configErrorEnvelope ∧ r.headers = none) := by
  cases hg : gateCheck env b64 event with
  | crash e =>
    have hc : lambda_handler env b64 loads upstream event = .error e := by
      unfold lambda_handler; rw [hg]
    rw [hc] at h
    exact Except.noConfusion h
  | early resp =>
    have he : lambda_handler env b64 loads upstream event = .ok resp := by
      unfold lambda_handler; rw [hg]
    rw [he] at h
    injection h with h
    subst h
    unfold gateCheck at hg
    rcases gateHeaders_early_cases env b64 _ resp hg with h | h | h | h <;> subst h
    · exact Or.inr (Or.inr ⟨rfl, rfl⟩)
    · exact Or.inr (Or.inl ⟨rfl, rfl⟩)
    · exact Or.inr (Or.inl ⟨rfl, rfl⟩)
    · exact Or.inr (Or.inl ⟨rfl, rfl⟩)
  | authed u =>
    have ha : lambda_handler env b64 loads upstream event
        = wrapExcept (mainBody env loads upstream event) := by
      unfold lambda_handler; rw [hg]
    rw [ha] at h
    cases hm : mainBody env loads upstream event with
    | ok resp =>
      rw [hm] at h
      simp only [wrapExcept] at h
      injection h with h
      subst h
      exact Or.inl (mainBody_ok_headers _ _ _ _ _ hm)
    | error e =>
      rw [hm] at h
      simp only [wrapExcept] at h
      split at h <;> (injection h with h; subst h; exact Or.inl rfl)

/-- Witness for C5's amended theorem at the missing-configuration input. -/
theorem c5_envelope_headers_witness :
    configErrorEnvelope.headers = some corsHeaders
    ∨ (configErrorEnvelope.statusCode = 401
        ∧ configErrorEnvelope.headers = some wwwAuthHeader)
    ∨ (configErrorEnvelope = configErrorEnvelope
        ∧ configErrorEnvelope.headers = none) :=
  c5_envelope_headers ⟨none, none, some "k"⟩ b64W loadsNone
    (fun _ _ => .ok "" 0 0) eventA configErrorEnvelope rfl
